import Mathlib

/-!
Verification development for the M-Pesa backend integration layer
(STK Push / B2C payment flows).  The definitions below are a shallow
embedding of the transaction lifecycle reconciliation code:
the service layer (mpesa.service.js: initiateSTKPush, startStatusPolling,
setTransactionTimeout, handleStkCallback, queryStkStatus), the webhook
controllers (mpesa.controller.js) and the transactions controller
(transactions.controller.js: retryTransaction).  JavaScript values that the
code compares with strict equality are modelled by the JSVal type; the
persistent store is modelled as a list of transaction records; the timer
registry (utils/timer.js) and the polling-interval map are modelled as
lists of active correlation ids.
-/

/-- A JavaScript value as it appears in a JSON payload field that the code
compares with strict equality: either a number (the integral case, which is
the only one the result codes use) or a string.  Strict equality between a
number and a string is always false. -/
inductive JSVal where
  | num (n : Int)
  | str (s : String)
deriving DecidableEq, Repr

/-- Strict equality test of a payload value against a numeric literal,
as in the source expressions of the form resultCode === 0. -/
def jsEqNum (v : JSVal) (n : Int) : Bool :=
  match v with
  | .num m => m == n
  | .str _ => false

/-- The toString conversion applied when the code persists a result code,
as in resultCode.toString(). -/
def jsvalToString : JSVal → String
  | .num n => toString n
  | .str s => s

/-- Property assignment on a JavaScript object modelled as an association
list: an existing key keeps its position and gets the new value, a new key
is appended. -/
def jsSet (m : List (String × JSVal)) (k : String) (v : JSVal) :
    List (String × JSVal) :=
  match m with
  | [] => [(k, v)]
  | kv :: rest => if kv.1 == k then (k, v) :: rest else kv :: jsSet rest k v

/-- Property read on a JavaScript object modelled as an association list;
none plays the role of undefined. -/
def jsGet (m : List (String × JSVal)) (k : String) : Option JSVal :=
  (m.find? (fun kv => kv.1 == k)).map (fun kv => kv.2)

/-- Transaction status enumeration of models/transaction.model.js:
pending is initial, the other three are terminal. -/
inductive TxStatus where
  | pending
  | success
  | failed
  | cancelled
deriving DecidableEq, Repr

/-- The persisted STK transaction record (models/transaction.model.js).
The free-form metadata bag is modelled by the two keys the reconciliation
code writes into it (paymentData and completedAt); mpesaReceiptNumber and
transactionId are stored through the schema's string cast. -/
structure Transaction where
  transactionType : String
  amount : Rat
  phoneNumber : String
  referenceId : String
  status : TxStatus
  checkoutRequestID : String
  merchantRequestID : String
  resultCode : Option String
  resultDesc : Option String
  mpesaReceiptNumber : Option String
  transactionId : Option String
  failureReason : Option String
  timeoutAt : Option Nat
  timeoutHandled : Bool
  metaPaymentData : Option (List (String × JSVal))
  metaCompletedAt : Option Nat
  createdAt : Nat
  updatedAt : Nat
deriving DecidableEq, Repr

/-- The mutable system state shared by the three resolution sources: the
transaction store, the polling-interval map of startStatusPolling
(keys of the live setInterval handles) and the timer registry of
utils/timer.js (keys of the live setTimeout handles). -/
structure SysState where
  store : List Transaction
  activePollers : List String
  activeTimeouts : List String
deriving DecidableEq, Repr

/-- Transaction.findOne on the checkoutRequestID key. -/
def findByCheckout (store : List Transaction) (id : String) : Option Transaction :=
  store.find? (fun t => t.checkoutRequestID == id)

/-- Persisting a mutated document: the first record whose
checkoutRequestID matches is replaced by the updated record. -/
def saveFirst (store : List Transaction) (id : String)
    (f : Transaction → Transaction) : List Transaction :=
  match store with
  | [] => []
  | t :: rest =>
      if t.checkoutRequestID == id then f t :: rest else t :: saveFirst rest id f

/-- The stopStatusPolling method: clearInterval plus removal from the
polling-interval map. -/
def stopStatusPolling (id : String) (st : SysState) : SysState :=
  { st with activePollers := st.activePollers.erase id }

/-- The clearTransactionTimeout function of utils/timer.js: clearTimeout
plus removal from the registry when the id is present. -/
def clearTransactionTimeout (id : String) (st : SysState) : SysState :=
  { st with activeTimeouts := st.activeTimeouts.erase id }

/-- The setTransactionTimeout function of utils/timer.js: any existing
timer for the id is cleared, then a fresh one is registered. -/
def setTransactionTimeoutArm (id : String) (st : SysState) : SysState :=
  { st with activeTimeouts := id :: st.activeTimeouts.erase id }

/-- One name/value entry of the callback metadata item list; a missing
Name is none and JavaScript truthiness makes the empty string falsy, a
missing Value is none (undefined). -/
structure MetaItem where
  name : Option String
  value : Option JSVal
deriving DecidableEq, Repr

/-- Whether the reduce step of the callback handler keeps an item:
the source condition is item.Name && item.Value !== undefined. -/
def metaItemKept (item : MetaItem) : Bool :=
  match item.name, item.value with
  | some n, some _ => n != ""
  | _, _ => false

/-- One step of the reduce over the callback metadata items:
acc[item.Name] = item.Value when the item is kept. -/
def metaReduceStep (acc : List (String × JSVal)) (item : MetaItem) :
    List (String × JSVal) :=
  match item.name, item.value with
  | some n, some v => if n != "" then jsSet acc n v else acc
  | _, _ => acc

/-- The reduce of the callback metadata items into a flat object, as in
handleStkCallback. -/
def reduceMetadataItems (items : List MetaItem) : List (String × JSVal) :=
  items.foldl metaReduceStep []

/-- The parsed STK callback payload (Body.stkCallback): correlation id,
result code and description, and the optional metadata item list
(CallbackMetadata.Item reached through optional chaining). -/
structure StkCallbackData where
  checkoutRequestID : String
  resultCode : JSVal
  resultDesc : String
  callbackMetadata : Option (List MetaItem)
deriving DecidableEq, Repr

/-- The webhook resolution chain of handleStkCallback for a non-zero
result code: status defaults to failed with the raw description as the
reason, the known codes override both. -/
def stkCallbackFailureOutcome (resultCode : JSVal) (resultDesc : String) :
    TxStatus × Option String :=
  if jsEqNum resultCode 1032 then (.cancelled, some "Transaction cancelled by user")
  else if jsEqNum resultCode 1037 then (.cancelled, some "Timeout in customer response")
  else if jsEqNum resultCode 1001 then (.failed, some "Incorrect PIN")
  else if jsEqNum resultCode 1019 then (.failed, some "Transaction already processed")
  else if jsEqNum resultCode 1025 then (.failed, some "Insufficient funds")
  else (.failed, some resultDesc)

/-- The document mutation performed by handleStkCallback on the found
transaction.  The success branch extracts the payment data map and writes
the receipt fields without touching failureReason; the failure branch
writes the outcome of the resolution chain. -/
def stkCallbackApply (cb : StkCallbackData) (now : Nat)
    (transaction : Transaction) : Transaction :=
  if jsEqNum cb.resultCode 0 then
    let paymentData := reduceMetadataItems (cb.callbackMetadata.getD [])
    { transaction with
      status := .success
      resultCode := some (jsvalToString cb.resultCode)
      resultDesc := some cb.resultDesc
      mpesaReceiptNumber := (jsGet paymentData "MpesaReceiptNumber").map jsvalToString
      transactionId := (jsGet paymentData "MpesaReceiptNumber").map jsvalToString
      timeoutHandled := true
      metaPaymentData := some paymentData
      metaCompletedAt := some now
      updatedAt := now }
  else
    let outcome := stkCallbackFailureOutcome cb.resultCode cb.resultDesc
    { transaction with
      status := outcome.1
      resultCode := some (jsvalToString cb.resultCode)
      resultDesc := some cb.resultDesc
      failureReason := outcome.2
      timeoutHandled := true
      metaCompletedAt := some now
      updatedAt := now }

/-- The service handleStkCallback (mpesa.service.js): stop polling, clear
the timeout, look the transaction up by correlation id; an unknown id is
logged and discarded (null returned); a found transaction is mutated and
saved unconditionally, with no check of its current status. -/
def handleStkCallback (cb : StkCallbackData) (now : Nat) (st : SysState) :
    Option Transaction × SysState :=
  let st1 := clearTransactionTimeout cb.checkoutRequestID
      (stopStatusPolling cb.checkoutRequestID st)
  match findByCheckout st1.store cb.checkoutRequestID with
  | none => (none, st1)
  | some transaction =>
      let updated := stkCallbackApply cb now transaction
      (some updated,
        { st1 with
            store := saveFirst st1.store cb.checkoutRequestID (fun _ => updated) })

/-- Outcome of one outbound status-query call to the gateway: an HTTP
response carrying a result code and description, the specific error whose
message contains "transaction is being processed", or any other error. -/
inductive GatewayOutcome where
  | response (resultCode : JSVal) (resultDesc : String)
  | inProgressError
  | otherError
deriving DecidableEq, Repr

/-- What queryStkStatus returns to its caller: the response data, the
standardized in-progress object the catch branch builds, or a rethrown
error. -/
inductive StkQueryResult where
  | data (resultCode : JSVal) (resultDesc : String)
  | inProgress
  | thrown
deriving DecidableEq, Repr

/-- The status-query resolution chain of queryStkStatus: status defaults
to pending, the known codes give a definitive outcome, codes 1 and 2 are
treated as in-progress, every other code is a failure carrying the raw
description.  Code 1019 has no case of its own in this path. -/
def stkQueryOutcome (resultCode : JSVal) (resultDesc : String) :
    TxStatus × Option String :=
  if jsEqNum resultCode 0 then (.success, none)
  else if jsEqNum resultCode 1032 then (.cancelled, some "Transaction cancelled by user")
  else if jsEqNum resultCode 1037 then (.cancelled, some "Timeout in customer response")
  else if jsEqNum resultCode 1001 then (.failed, some "Incorrect PIN")
  else if jsEqNum resultCode 1025 then (.failed, some "Insufficient funds")
  else if !(jsEqNum resultCode 1) && !(jsEqNum resultCode 2) then (.failed, some resultDesc)
  else (.pending, none)

/-- The service queryStkStatus (mpesa.service.js), parameterised by the
gateway outcome.  A response updates the found transaction only when its
status is still pending and the chain yields a definitive status, in which
case the timeout is cleared as well; the in-progress error is swallowed
and the standardized object returned; other errors are rethrown with no
state change. -/
def queryStkStatus (checkoutRequestID : String) (gw : GatewayOutcome)
    (now : Nat) (st : SysState) : StkQueryResult × SysState :=
  match gw with
  | .inProgressError => (.inProgress, st)
  | .otherError => (.thrown, st)
  | .response resultCode resultDesc =>
      match findByCheckout st.store checkoutRequestID with
      | none => (.data resultCode resultDesc, st)
      | some transaction =>
          if transaction.status = .pending then
            let outcome := stkQueryOutcome resultCode resultDesc
            if outcome.1 ≠ .pending then
              let st1 :=
                { st with
                    store := saveFirst st.store checkoutRequestID (fun t =>
                      { t with
                          status := outcome.1
                          resultCode := some (jsvalToString resultCode)
                          resultDesc := some resultDesc
                          failureReason := outcome.2
                          timeoutHandled := true
                          updatedAt := now }) }
              (.data resultCode resultDesc, clearTransactionTimeout checkoutRequestID st1)
            else (.data resultCode resultDesc, st)
          else (.data resultCode resultDesc, st)

/-- One tick of the startStatusPolling interval (mpesa.service.js),
parameterised by the gateway outcome of the tick's status query and the
tick's wall-clock time.  The attempts argument is the counter value after
the tick's increment.  A missing transaction stops the poller; a
non-pending transaction stops the poller, clears the timeout and returns
before the attempt-budget check; otherwise the status query runs, a
definitive refetched status stops the poller and clears the timeout, and
on the exhausted budget a refetched still-pending transaction is marked
cancelled with reason "Timeout - No Response". -/
def startStatusPollingTick (checkoutRequestID : String)
    (maxAttempts attempts : Nat) (gw : GatewayOutcome) (now : Nat)
    (st : SysState) : SysState :=
  match findByCheckout st.store checkoutRequestID with
  | none => stopStatusPolling checkoutRequestID st
  | some transaction =>
    if transaction.status ≠ .pending then
      clearTransactionTimeout checkoutRequestID
        (stopStatusPolling checkoutRequestID st)
    else
      let queried := queryStkStatus checkoutRequestID gw now st
      let early : Bool × SysState :=
        match queried.1 with
        | .thrown => (false, queried.2)
        | _ =>
          match findByCheckout queried.2.store checkoutRequestID with
          | some updated =>
              if updated.status ≠ .pending then
                (true, clearTransactionTimeout checkoutRequestID
                  (stopStatusPolling checkoutRequestID queried.2))
              else (false, queried.2)
          | none => (false, queried.2)
      if early.1 then early.2
      else if attempts ≥ maxAttempts then
        let st3 := stopStatusPolling checkoutRequestID early.2
        match findByCheckout st3.store checkoutRequestID with
        | some updated =>
            if updated.status = .pending then
              { st3 with
                  store := saveFirst st3.store checkoutRequestID (fun t =>
                    { t with
                        status := .cancelled
                        failureReason := some "Timeout - No Response"
                        timeoutHandled := true
                        updatedAt := now }) }
            else st3
        | none => st3
      else early.2

/-- The startStatusPolling loop from a given attempt count: the ticks
fire in order with their gateway outcomes and times, each one only while
the interval for the id is still registered; the attempt counter advances
with each fired tick. -/
def runStatusPollingAux (checkoutRequestID : String) (maxAttempts : Nat)
    (attempts : Nat) (ticks : List (GatewayOutcome × Nat)) (st : SysState) :
    SysState :=
  match ticks with
  | [] => st
  | tk :: rest =>
      if checkoutRequestID ∈ st.activePollers then
        runStatusPollingAux checkoutRequestID maxAttempts (attempts + 1) rest
          (startStatusPollingTick checkoutRequestID maxAttempts (attempts + 1)
            tk.1 tk.2 st)
      else runStatusPollingAux checkoutRequestID maxAttempts attempts rest st

/-- A run of the startStatusPolling loop starting at attempt zero. -/
def runStatusPolling (checkoutRequestID : String) (maxAttempts : Nat)
    (ticks : List (GatewayOutcome × Nat)) (st : SysState) : SysState :=
  runStatusPollingAux checkoutRequestID maxAttempts 0 ticks st

/-- The timeout callback armed by setTransactionTimeout
(mpesa.service.js), parameterised by the gateway outcome of its final
status query.  The fired timer leaves the registry; a missing transaction
is a no-op; a pending transaction gets one best-effort status query and,
unless the refetch shows a definitive status, is marked cancelled with
reason "Timeout - No Response"; a non-pending transaction only has
timeoutHandled and updatedAt written. -/
def transactionTimeoutHandler (id : String) (gw : GatewayOutcome)
    (now : Nat) (st : SysState) : SysState :=
  let st0 := { st with activeTimeouts := st.activeTimeouts.erase id }
  match findByCheckout st0.store id with
  | none => st0
  | some _transaction =>
    if _transaction.status = .pending then
      let queried := queryStkStatus id gw now st0
      let resolvedByQuery : Bool :=
        match queried.1 with
        | .thrown => false
        | _ =>
          match findByCheckout queried.2.store id with
          | some updated => updated.status ≠ .pending
          | none => false
      if resolvedByQuery then queried.2
      else
        { queried.2 with
            store := saveFirst queried.2.store id (fun t =>
              { t with
                  status := .cancelled
                  failureReason := some "Timeout - No Response"
                  timeoutHandled := true
                  updatedAt := now }) }
    else
      { st0 with
          store := saveFirst st0.store id (fun t =>
            { t with timeoutHandled := true, updatedAt := now }) }

/-- Rounding of the charged amount as performed by Math.round in the STK
Push request body: round half toward positive infinity. -/
def jsMathRound (q : Rat) : Int := ⌊q + 1 / 2⌋

/-- The formatPhoneNumber helper (utils/helpers.js) with the default
country code: strip non-digits, a leading zero and an existing country
code, then prepend the country code. -/
def formatPhoneNumber (phoneNumber : String) : String :=
  let cleaned := String.mk (phoneNumber.toList.filter Char.isDigit)
  let cleaned := if cleaned.startsWith "0" then cleaned.drop 1 else cleaned
  let cleaned := if cleaned.startsWith "254" then cleaned.drop 3 else cleaned
  "254" ++ cleaned

/-- The STK Push request body fields relevant to the reconciliation core;
the Amount field carries the rounded amount. -/
structure StkPushRequestBody where
  businessShortCode : String
  transactionType : String
  amount : Int
  partyA : String
  partyB : String
  phoneNumber : String
  accountReference : String
  transactionDesc : String
deriving DecidableEq, Repr

/-- The service initiateSTKPush (mpesa.service.js), parameterised by the
gateway acceptance response.  The request body sends Math.round(amount)
while the persisted pending transaction stores the original amount; on
acceptance the 120 second timeout is armed and the poller is scheduled. -/
def initiateSTKPush (shortCode phoneNumber : String) (amount : Rat)
    (accountReference transactionDesc : String) (gwResponseCode : String)
    (checkoutRequestID merchantRequestID : String) (now : Nat)
    (st : SysState) : StkPushRequestBody × SysState :=
  let formattedPhone := formatPhoneNumber phoneNumber
  let requestBody : StkPushRequestBody :=
    { businessShortCode := shortCode
      transactionType := "CustomerPayBillOnline"
      amount := jsMathRound amount
      partyA := formattedPhone
      partyB := shortCode
      phoneNumber := formattedPhone
      accountReference := accountReference
      transactionDesc := if transactionDesc = "" then "Payment" else transactionDesc }
  if gwResponseCode = "0" then
    let transaction : Transaction :=
      { transactionType := "STK_PUSH"
        amount := amount
        phoneNumber := formattedPhone
        referenceId := accountReference
        status := .pending
        checkoutRequestID := checkoutRequestID
        merchantRequestID := merchantRequestID
        resultCode := none
        resultDesc := none
        mpesaReceiptNumber := none
        transactionId := none
        failureReason := none
        timeoutAt := some (now + 120)
        timeoutHandled := false
        metaPaymentData := none
        metaCompletedAt := none
        createdAt := now
        updatedAt := now }
    (requestBody,
      setTransactionTimeoutArm checkoutRequestID
        { st with
            store := st.store ++ [transaction]
            activePollers := checkoutRequestID :: st.activePollers.erase checkoutRequestID })
  else (requestBody, st)

/-- An observable action of a webhook controller, in the order the handler
performs it: the HTTP response sent back to the provider, or a log line. -/
inductive WebhookEvent where
  | respond (httpStatus : Nat)
  | logInfo (message : String)
  | logWarn (message : String)
  | logError (message : String)
deriving DecidableEq, Repr

/-- The inbound STK webhook request body: either the access of
req.body.Body.stkCallback throws (malformed envelope) or it yields the
callback payload. -/
inductive StkWebhookBody where
  | malformed
  | wellFormed (cb : StkCallbackData)
deriving DecidableEq, Repr

/-- The controller handleStkCallback (mpesa.controller.js): the 200
acknowledgment is sent to the caller first, then the payload is processed
inside a try/catch whose failures are only logged, so no processing
outcome can reach the response.  An unknown correlation id makes the
service return null, which is logged as a warning. -/
def handleStkCallbackController (body : StkWebhookBody) (now : Nat)
    (st : SysState) : List WebhookEvent × SysState :=
  let ack : WebhookEvent := .respond 200
  match body with
  | .malformed => ([ack, .logError "Error processing STK callback"], st)
  | .wellFormed cb =>
      let processed := handleStkCallback cb now st
      match processed.1 with
      | some _ =>
          ([ack, .logInfo "STK callback processed successfully"], processed.2)
      | none =>
          ([ack,
            .logWarn "STK callback processing completed but no transaction was updated"],
            processed.2)

/-- A disbursement transaction row as both persistence variants of the
repository store it: the Mongoose document carrying conversationID and
originatorConversationID and the fine-table row carrying conversationId
and originatorConversationId; status is kept as the raw string each
variant writes. -/
structure B2CTransaction where
  id : Nat
  conversationId : String
  originatorConversationId : String
  status : String
  transactionId : Option String
  resultCode : Option String
  resultDesc : Option String
  failureReason : Option String
  updatedAt : Nat
deriving DecidableEq, Repr

/-- The parsed B2C result webhook envelope (req.body.Result). -/
structure B2CResultData where
  conversationID : String
  originatorConversationID : String
  transactionID : String
  resultCode : JSVal
  resultDesc : String
deriving DecidableEq, Repr

/-- Replacement of the first row satisfying the predicate; the remaining
rows are untouched, and no match leaves the list unchanged. -/
def updateFirstB2C (store : List B2CTransaction) (p : B2CTransaction → Bool)
    (f : B2CTransaction → B2CTransaction) : List B2CTransaction :=
  match store with
  | [] => []
  | t :: rest => if p t then f t :: rest else t :: updateFirstB2C rest p f

/-- The Mongoose-backed handleB2CResultCallback (mpesa.controller.js):
findOneAndUpdate with an or-filter over both conversation identifiers;
result code 0 sets status COMPLETED with the transaction id, any other
code sets status FAILED, both persisting the code and description; no
match is a no-op. -/
def handleB2CResultCallbackMongo (p : B2CResultData)
    (store : List B2CTransaction) : List B2CTransaction :=
  let orMatch := fun t : B2CTransaction =>
    t.conversationId == p.conversationID
      || t.originatorConversationId == p.originatorConversationID
  if jsEqNum p.resultCode 0 then
    updateFirstB2C store orMatch (fun t =>
      { t with
          status := "COMPLETED"
          transactionId := some p.transactionID
          resultCode := some (jsvalToString p.resultCode)
          resultDesc := some p.resultDesc })
  else
    updateFirstB2C store orMatch (fun t =>
      { t with
          status := "FAILED"
          resultCode := some (jsvalToString p.resultCode)
          resultDesc := some p.resultDesc })

/-- The fine-table-backed handleB2CResultCallback (mpesa.controller.js):
the row is selected by conversationId alone, the originator conversation
id is never consulted; result code 0 sets status success, any other code
sets status failed with the description as failure reason; no selected row
is only logged. -/
def handleB2CResultCallbackFine (p : B2CResultData) (now : Nat)
    (store : List B2CTransaction) : List B2CTransaction :=
  let selected := store.filter (fun t => t.conversationId == p.conversationID)
  match selected.head? with
  | none => store
  | some first =>
      if jsEqNum p.resultCode 0 then
        updateFirstB2C store (fun t => t.id == first.id) (fun t =>
          { t with
              status := "success"
              transactionId := some p.transactionID
              resultCode := some (jsvalToString p.resultCode)
              resultDesc := some p.resultDesc
              updatedAt := now })
      else
        updateFirstB2C store (fun t => t.id == first.id) (fun t =>
          { t with
              status := "failed"
              resultCode := some (jsvalToString p.resultCode)
              resultDesc := some p.resultDesc
              failureReason := some p.resultDesc
              updatedAt := now })

/-- A transaction row of the fine-table store as the transactions
controller reads it. -/
structure FineTransaction where
  id : Nat
  transactionType : String
  amount : Rat
  phoneNumber : String
  referenceId : String
  status : String
  updatedAt : Nat
deriving DecidableEq, Repr

/-- What a call to retryTransaction produces: an ApiError with an HTTP
status code, or a re-run of initiation for the transaction kind. -/
inductive RetryOutcome where
  | apiError (statusCode : Nat) (message : String)
  | retryInitiated (transactionType : String)
deriving DecidableEq, Repr

/-- The transactions controller retryTransaction
(transactions.controller.js): a missing id is a 404, a status other than
failed or cancelled is a 400 with no initiation, a known kind re-runs
initiation, an unknown kind is a 400. -/
def retryTransaction (store : List FineTransaction) (id : Nat) : RetryOutcome :=
  match store.find? (fun t => t.id == id) with
  | none => .apiError 404 "Transaction not found"
  | some transaction =>
      if transaction.status != "failed" && transaction.status != "cancelled" then
        .apiError 400 ("Cannot retry transaction with status: " ++ transaction.status)
      else if transaction.transactionType == "STK_PUSH" then
        .retryInitiated "STK_PUSH"
      else if transaction.transactionType == "B2C" then
        .retryInitiated "B2C"
      else
        .apiError 400 ("Cannot retry transaction of type: " ++ transaction.transactionType)

/-- The resolution mapping as the claim states it for the webhook path:
the fixed lookup table from provider result codes to outcome and
human-readable reason. -/
def specStkCallbackMapping (code : Int) (desc : String) : TxStatus × Option String :=
  if code = 0 then (.success, none)
  else if code = 1032 then (.cancelled, some "Transaction cancelled by user")
  else if code = 1037 then (.cancelled, some "Timeout in customer response")
  else if code = 1001 then (.failed, some "Incorrect PIN")
  else if code = 1019 then (.failed, some "Transaction already processed")
  else if code = 1025 then (.failed, some "Insufficient funds")
  else (.failed, some desc)

/-- The amended mapping for the polling/status-query path: code 1019 has
no dedicated entry and falls into the catch-all failure with the raw
description, while codes 1 and 2 are treated as still in progress and do
not resolve the transaction. -/
def specStkQueryAmendedMapping (code : Int) (desc : String) : TxStatus × Option String :=
  if code = 0 then (.success, none)
  else if code = 1032 then (.cancelled, some "Transaction cancelled by user")
  else if code = 1037 then (.cancelled, some "Timeout in customer response")
  else if code = 1001 then (.failed, some "Incorrect PIN")
  else if code = 1025 then (.failed, some "Insufficient funds")
  else if code ≠ 1 ∧ code ≠ 2 then (.failed, some desc)
  else (.pending, none)

/-- The value of the last kept name/value item carrying the given name,
the spec-side reading of the reduce: the flat map holds exactly the items
with a truthy Name and a defined Value, later duplicates overwriting
earlier ones. -/
def lastKeptValue (items : List MetaItem) (k : String) : Option JSVal :=
  match (items.filter metaItemKept).reverse.find?
      (fun item => item.name == some k) with
  | some item => item.value
  | none => none

/-- A concrete STK transaction record used by concrete instances. -/
def sampleTransaction (id : String) (status : TxStatus) : Transaction :=
  { transactionType := "STK_PUSH"
    amount := 10
    phoneNumber := "254712345678"
    referenceId := "REF1"
    status := status
    checkoutRequestID := id
    merchantRequestID := "MR1"
    resultCode := none
    resultDesc := none
    mpesaReceiptNumber := none
    transactionId := none
    failureReason := none
    timeoutAt := some 220
    timeoutHandled := false
    metaPaymentData := none
    metaCompletedAt := none
    createdAt := 100
    updatedAt := 100 }

/-- A concrete disbursement row used by concrete instances. -/
def sampleB2CTransaction : B2CTransaction :=
  { id := 1
    conversationId := "AG_1"
    originatorConversationId := "OCI_1"
    status := "pending"
    transactionId := none
    resultCode := none
    resultDesc := none
    failureReason := none
    updatedAt := 100 }

theorem findByCheckout_eq_id {store : List Transaction} {id : String}
    {t : Transaction} (h : findByCheckout store id = some t) :
    t.checkoutRequestID = id := by
  have := List.find?_some h
  exact of_decide_eq_true this

theorem findByCheckout_saveFirst (store : List Transaction) (id : String)
    (f : Transaction → Transaction)
    (hf : ∀ t, t.checkoutRequestID = id → (f t).checkoutRequestID = id) :
    findByCheckout (saveFirst store id f) id = (findByCheckout store id).map f := by
  induction store with
  | nil => simp [findByCheckout, saveFirst]
  | cons t rest ih =>
      by_cases h : t.checkoutRequestID = id
      · have hb : (t.checkoutRequestID == id) = true := by simp [h]
        have hfb : ((f t).checkoutRequestID == id) = true := by simp [hf t h]
        simp [findByCheckout, saveFirst, List.find?, hb, hfb]
      · have hb : (t.checkoutRequestID == id) = false := by simp [h]
        simpa [findByCheckout, saveFirst, List.find?, hb] using ih

theorem jsGet_jsSet (m : List (String × JSVal)) (k : String) (v : JSVal)
    (q : String) :
    jsGet (jsSet m k v) q = if q = k then some v else jsGet m q := by
  induction m with
  | nil =>
      by_cases h : q = k
      · simp [jsGet, jsSet, List.find?, h]
      · have hb : (k == q) = false := by simp [Ne.symm h]
        simp [jsGet, jsSet, List.find?, hb, h]
  | cons kv rest ih =>
      by_cases hk : kv.1 = k
      · have hb : (kv.1 == k) = true := by simp [hk]
        by_cases hq : q = k
        · simp [jsGet, jsSet, List.find?, hb, hq]
        · have hb2 : (k == q) = false := by simp [Ne.symm hq]
          have hb3 : (kv.1 == q) = false := by simp [hk, Ne.symm hq]
          simp [jsGet, jsSet, List.find?, hb, hb2, hb3, hq]
      · have hb : (kv.1 == k) = false := by simp [hk]
        by_cases hq : q = kv.1
        · have hb2 : (kv.1 == q) = true := by simp [hq]
          have hqk : ¬ q = k := by rw [hq]; exact hk
          simp [jsGet, jsSet, List.find?, hb, hb2, hqk]
        · have hb2 : (kv.1 == q) = false := by simp [Ne.symm hq]
          simpa [jsGet, jsSet, List.find?, hb, hb2] using ih

theorem find?_append {α : Type} (l₁ l₂ : List α) (p : α → Bool) :
    (l₁ ++ l₂).find? p = ((l₁.find? p).or (l₂.find? p)) := by
  induction l₁ with
  | nil => simp [List.find?]
  | cons a rest ih =>
      by_cases h : p a = true
      · simp [List.find?, h, Option.or]
      · have hb : p a = false := by simp [h]
        simp [List.find?, hb, ih]

theorem metaItemKept_value_isSome {it : MetaItem}
    (h : metaItemKept it = true) : ∃ v, it.value = some v := by
  rcases it with ⟨n, val⟩
  cases n with
  | none => simp [metaItemKept] at h
  | some s =>
      cases val with
      | none => simp [metaItemKept] at h
      | some v => exact ⟨v, rfl⟩

theorem lastKeptValue_cons (item : MetaItem) (rest : List MetaItem) (k : String) :
    lastKeptValue (item :: rest) k =
      ((lastKeptValue rest k).or
        (if metaItemKept item && (item.name == some k) then item.value else none)) := by
  by_cases hk : metaItemKept item = true
  · unfold lastKeptValue
    rw [List.filter_cons_of_pos hk, List.reverse_cons, find?_append]
    cases hfind : (rest.filter metaItemKept).reverse.find?
        (fun it => it.name == some k) with
    | some it =>
        have hmem : it ∈ (rest.filter metaItemKept).reverse :=
          List.mem_of_find?_eq_some hfind
        have hkept : metaItemKept it = true :=
          (List.mem_filter.mp (List.mem_reverse.mp hmem)).2
        obtain ⟨v, hv⟩ := metaItemKept_value_isSome hkept
        simp [Option.or, hv]
    | none =>
        by_cases hn : (item.name == some k) = true
        · obtain ⟨v, hv⟩ := metaItemKept_value_isSome hk
          simp [Option.or, List.find?, hn, hk, hv]
        · have hn2 : (item.name == some k) = false := Bool.eq_false_iff.mpr hn
          simp [Option.or, List.find?, hn2, hk]
  · have hk2 : metaItemKept item = false := Bool.eq_false_iff.mpr hk
    unfold lastKeptValue
    rw [List.filter_cons_of_neg (by simp [hk2])]
    cases hfind : (rest.filter metaItemKept).reverse.find?
        (fun it => it.name == some k) with
    | some it =>
        have hmem : it ∈ (rest.filter metaItemKept).reverse :=
          List.mem_of_find?_eq_some hfind
        have hkept : metaItemKept it = true :=
          (List.mem_filter.mp (List.mem_reverse.mp hmem)).2
        obtain ⟨v, hv⟩ := metaItemKept_value_isSome hkept
        simp [hk2, Option.or, hv]
    | none => simp [hk2, Option.or]

theorem jsGet_foldl_metaReduce (items : List MetaItem)
    (acc : List (String × JSVal)) (k : String) :
    jsGet (items.foldl metaReduceStep acc) k
      = (lastKeptValue items k).or (jsGet acc k) := by
  induction items generalizing acc with
  | nil => simp [lastKeptValue, Option.or, List.find?]
  | cons item rest ih =>
      rw [List.foldl_cons, ih, lastKeptValue_cons]
      cases hlast : lastKeptValue rest k with
      | some w => simp [Option.or]
      | none =>
          simp only [Option.or]
          rcases item with ⟨name, value⟩
          cases name with
          | none => simp [metaReduceStep, metaItemKept, Option.or]
          | some n =>
              cases value with
              | none => simp [metaReduceStep, metaItemKept, Option.or]
              | some v =>
                  by_cases hne : n = ""
                  · simp [metaReduceStep, metaItemKept, hne, Option.or]
                  · have hb : (n != "") = true := by simp [hne]
                    by_cases hkn : k = n
                    · have hb2 : ((some n : Option String) == some k) = true := by
                        simp [hkn]
                      simp [metaReduceStep, metaItemKept, hb, hb2, hkn,
                        jsGet_jsSet, Option.or]
                    · have hb2 : ((some n : Option String) == some k) = false := by
                        simp [Ne.symm hkn]
                      simp [metaReduceStep, metaItemKept, hb, hb2, hkn,
                        jsGet_jsSet, Option.or]

theorem jsGet_reduceMetadataItems (items : List MetaItem) (k : String) :
    jsGet (reduceMetadataItems items) k = lastKeptValue items k := by
  rw [reduceMetadataItems, jsGet_foldl_metaReduce]
  cases h : lastKeptValue items k with
  | some w => simp [Option.or]
  | none => simp [Option.or, jsGet, List.find?]

theorem stkCallbackApply_checkout (cb : StkCallbackData) (now : Nat)
    (t : Transaction) :
    (stkCallbackApply cb now t).checkoutRequestID = t.checkoutRequestID := by
  by_cases h : jsEqNum cb.resultCode 0 = true <;> simp [stkCallbackApply, h]

theorem handleStkCallback_find (cb : StkCallbackData) (now : Nat)
    (st : SysState) (t : Transaction)
    (hfind : findByCheckout st.store cb.checkoutRequestID = some t) :
    findByCheckout (handleStkCallback cb now st).2.store cb.checkoutRequestID
      = some (stkCallbackApply cb now t) := by
  unfold handleStkCallback
  simp only [clearTransactionTimeout, stopStatusPolling]
  rw [hfind]
  have hid : t.checkoutRequestID = cb.checkoutRequestID := findByCheckout_eq_id hfind
  rw [findByCheckout_saveFirst]
  · rw [hfind]
    rfl
  · intro u hu
    rw [stkCallbackApply_checkout]
    exact hid

theorem queryStkStatus_find_pending (rc : JSVal) (desc : String) (now : Nat)
    (st : SysState) (t : Transaction)
    (hfind : findByCheckout st.store t.checkoutRequestID = some t)
    (hp : t.status = .pending) :
    findByCheckout
        (queryStkStatus t.checkoutRequestID (.response rc desc) now st).2.store
        t.checkoutRequestID
      = some (if (stkQueryOutcome rc desc).1 ≠ .pending then
          { t with
              status := (stkQueryOutcome rc desc).1
              resultCode := some (jsvalToString rc)
              resultDesc := some desc
              failureReason := (stkQueryOutcome rc desc).2
              timeoutHandled := true
              updatedAt := now }
        else t) := by
  unfold queryStkStatus
  rw [hfind]
  by_cases hd : (stkQueryOutcome rc desc).1 ≠ .pending
  · simp only [hp, if_true, eq_self_iff_true, clearTransactionTimeout]
    rw [if_pos hd, if_pos hd]
    dsimp only
    rw [findByCheckout_saveFirst]
    · rw [hfind]
      rfl
    · intro u hu
      exact hu
  · simp only [hp, if_true, eq_self_iff_true, clearTransactionTimeout]
    rw [if_neg hd, if_neg hd]
    exact hfind

theorem timeoutHandler_nonpending (id : String) (gw : GatewayOutcome)
    (now : Nat) (st : SysState) (t : Transaction)
    (hfind : findByCheckout st.store id = some t)
    (hstatus : t.status ≠ .pending) :
    ((findByCheckout (transactionTimeoutHandler id gw now st).store id).map
        (fun u => (u.status, u.resultCode, u.failureReason)))
      = some (t.status, t.resultCode, t.failureReason) := by
  unfold transactionTimeoutHandler
  dsimp only
  rw [hfind]
  dsimp only
  rw [if_neg hstatus]
  dsimp only
  rw [findByCheckout_saveFirst]
  · rw [hfind]
    rfl
  · intro u hu
    exact hu

/-- C1 (amended): the poll-exhaustion and timeout paths only write after a
read showing the transaction still pending, and leave a resolved
transaction's resolution untouched; the webhook path handleStkCallback
writes unconditionally, so a successful callback arriving after a terminal
write still flips the status to success. -/
theorem resolution_after_terminal_write (st : SysState) (now : Nat) :
    (∀ id gw t, findByCheckout st.store id = some t → t.status ≠ .pending →
      ((findByCheckout (transactionTimeoutHandler id gw now st).store id).map
          (fun u => (u.status, u.resultCode, u.failureReason)))
        = some (t.status, t.resultCode, t.failureReason)) ∧
    (∀ id maxAttempts attempts gw t,
      findByCheckout st.store id = some t → t.status ≠ .pending →
      (startStatusPollingTick id maxAttempts attempts gw now st).store = st.store) ∧
    (∀ cb t, findByCheckout st.store cb.checkoutRequestID = some t →
      t.status = .cancelled → jsEqNum cb.resultCode 0 = true →
      ((findByCheckout (handleStkCallback cb now st).2.store cb.checkoutRequestID).map
          (fun u => u.status))
        = some .success) := by
  refine ⟨?_, ?_, ?_⟩
  · intro id gw t hfind hstatus
    exact timeoutHandler_nonpending id gw now st t hfind hstatus
  · intro id maxAttempts attempts gw t hfind hstatus
    unfold startStatusPollingTick
    rw [hfind]
    simp only [stopStatusPolling, clearTransactionTimeout]
    rw [if_pos hstatus]
  · intro cb t hfind hstatus hcode
    rw [handleStkCallback_find cb now st t hfind]
    simp [stkCallbackApply, hcode]

/-- Witness for the amended race-guard theorem at concrete resolved and
cancelled transactions. -/
theorem resolution_after_terminal_write_witness :
    ((findByCheckout
        (transactionTimeoutHandler "co1" GatewayOutcome.otherError 300
          ⟨[sampleTransaction "co1" TxStatus.failed], [], ["co1"]⟩).store "co1").map
        (fun u => (u.status, u.resultCode, u.failureReason)))
      = some (TxStatus.failed, none, none) ∧
    (startStatusPollingTick "co1" 12 4 GatewayOutcome.otherError 300
        ⟨[sampleTransaction "co1" TxStatus.failed], ["co1"], ["co1"]⟩).store
      = [sampleTransaction "co1" TxStatus.failed] ∧
    ((findByCheckout
        (handleStkCallback ⟨"co1", JSVal.num 0, "ok", none⟩ 300
          ⟨[sampleTransaction "co1" TxStatus.cancelled], [], []⟩).2.store "co1").map
        (fun u => u.status))
      = some TxStatus.success := by
  refine ⟨?_, ?_, ?_⟩
  · exact (resolution_after_terminal_write
      ⟨[sampleTransaction "co1" TxStatus.failed], [], ["co1"]⟩ 300).1
      "co1" GatewayOutcome.otherError (sampleTransaction "co1" TxStatus.failed)
      (by decide) (by decide)
  · exact (resolution_after_terminal_write
      ⟨[sampleTransaction "co1" TxStatus.failed], ["co1"], ["co1"]⟩ 300).2.1
      "co1" 12 4 GatewayOutcome.otherError (sampleTransaction "co1" TxStatus.failed)
      (by decide) (by decide)
  · exact (resolution_after_terminal_write
      ⟨[sampleTransaction "co1" TxStatus.cancelled], [], []⟩ 300).2.2
      ⟨"co1", JSVal.num 0, "ok", none⟩ (sampleTransaction "co1" TxStatus.cancelled)
      (by decide) (by decide) (by decide)

/-- C1 (counterexample): on an already cancelled transaction a success
webhook is not a no-op: it performs a second terminal transition
(cancelled to success), and replaying the same payload again writes the
record once more. -/
theorem cas_resolution_counterexample :
    ((findByCheckout
        ((handleStkCallback
            ⟨"co1", JSVal.num 0, "The service request is processed successfully.", none⟩
            150 ⟨[sampleTransaction "co1" TxStatus.cancelled], [], []⟩).2).store "co1").map
        (fun u => u.status))
      = some TxStatus.success ∧
    ((handleStkCallback
        ⟨"co1", JSVal.num 0, "The service request is processed successfully.", none⟩
        250
        ((handleStkCallback
            ⟨"co1", JSVal.num 0, "The service request is processed successfully.", none⟩
            150 ⟨[sampleTransaction "co1" TxStatus.cancelled], [], []⟩).2)).2.store
      ≠ ((handleStkCallback
            ⟨"co1", JSVal.num 0, "The service request is processed successfully.", none⟩
            150 ⟨[sampleTransaction "co1" TxStatus.cancelled], [], []⟩).2).store) := by
  constructor
  · decide
  · decide

/-- C2 (code bug): a provider result code delivered as the JSON string
"0" fails the strict numeric comparison against 0 in both resolution
paths, so the transaction is persisted with resultCode "0" and status
failed, violating the invariant that the code's own comments and repair
utilities assert. -/
theorem stringZeroResultCode_persists_failed :
    ((findByCheckout
        ((queryStkStatus "co1"
            (.response (JSVal.str "0") "The service request is processed successfully.")
            150 ⟨[sampleTransaction "co1" TxStatus.pending], [], ["co1"]⟩).2).store "co1").map
        (fun u => (u.status, u.resultCode)))
      = some (TxStatus.failed, some "0") ∧
    ((findByCheckout
        ((handleStkCallback ⟨"co1", JSVal.str "0", "Success", none⟩ 150
            ⟨[sampleTransaction "co1" TxStatus.pending], [], ["co1"]⟩).2).store "co1").map
        (fun u => (u.status, u.resultCode)))
      = some (TxStatus.failed, some "0") := by
  constructor
  · decide
  · decide

theorem callbackChain_eq_spec (code : Int) (desc : String) (h0 : code ≠ 0) :
    stkCallbackFailureOutcome (.num code) desc = specStkCallbackMapping code desc := by
  simp [stkCallbackFailureOutcome, specStkCallbackMapping, jsEqNum, h0]

theorem queryChain_eq_spec (code : Int) (desc : String) :
    stkQueryOutcome (.num code) desc = specStkQueryAmendedMapping code desc := by
  simp [stkQueryOutcome, specStkQueryAmendedMapping, jsEqNum]

theorem stkQueryOutcome_pending (rc : JSVal) (desc : String)
    (h : (stkQueryOutcome rc desc).1 = .pending) :
    stkQueryOutcome rc desc = (.pending, none) := by
  unfold stkQueryOutcome at h ⊢
  split_ifs at h ⊢
  all_goals simp_all

/-- C3 (amended): for numeric result codes the webhook path follows the
claimed table exactly (0 success, 1032 and 1037 cancelled, 1001, 1019 and
1025 failed with their specific reasons, everything else failed with the
raw description); the polling path differs: it has no 1019 entry (1019
falls into the catch-all with the raw description) and treats codes 1 and
2 as still in progress, resolving nothing. -/
theorem stk_result_code_mapping (code : Int) (desc : String) (t : Transaction)
    (now : Nat) (st : SysState)
    (hfind : findByCheckout st.store t.checkoutRequestID = some t)
    (hp : t.status = .pending) (hfr : t.failureReason = none) :
    ((findByCheckout
        (handleStkCallback ⟨t.checkoutRequestID, .num code, desc, none⟩ now st).2.store
        t.checkoutRequestID).map (fun u => (u.status, u.failureReason)))
      = some (specStkCallbackMapping code desc) ∧
    ((findByCheckout
        (queryStkStatus t.checkoutRequestID (.response (.num code) desc) now st).2.store
        t.checkoutRequestID).map (fun u => (u.status, u.failureReason)))
      = some (specStkQueryAmendedMapping code desc) := by
  constructor
  · rw [handleStkCallback_find _ now st t hfind]
    by_cases h0 : code = 0
    · subst h0
      simp [stkCallbackApply, jsEqNum, specStkCallbackMapping, hfr]
    · have hc : jsEqNum (.num code) 0 = false := by simp [jsEqNum, h0]
      simp [stkCallbackApply, hc, callbackChain_eq_spec code desc h0]
  · rw [queryStkStatus_find_pending _ _ now st t hfind hp]
    by_cases hd : (stkQueryOutcome (.num code) desc).1 ≠ .pending
    · rw [if_pos hd]
      simp [queryChain_eq_spec code desc]
    · rw [if_neg hd]
      have hpend : (stkQueryOutcome (.num code) desc).1 = .pending := not_not.mp hd
      have h2 := stkQueryOutcome_pending _ _ hpend
      rw [← queryChain_eq_spec code desc, h2]
      simp [hp, hfr]

/-- Witness for the per-path mapping theorem at code 1032 on a concrete
pending transaction. -/
theorem stk_result_code_mapping_witness :
    ((findByCheckout
        (handleStkCallback
          ⟨(sampleTransaction "co1" TxStatus.pending).checkoutRequestID, .num 1032,
            "Request cancelled by user", none⟩ 150
          ⟨[sampleTransaction "co1" TxStatus.pending], [], []⟩).2.store
        (sampleTransaction "co1" TxStatus.pending).checkoutRequestID).map
        (fun u => (u.status, u.failureReason)))
      = some (specStkCallbackMapping 1032 "Request cancelled by user") ∧
    ((findByCheckout
        (queryStkStatus (sampleTransaction "co1" TxStatus.pending).checkoutRequestID
          (.response (.num 1032) "Request cancelled by user") 150
          ⟨[sampleTransaction "co1" TxStatus.pending], [], []⟩).2.store
        (sampleTransaction "co1" TxStatus.pending).checkoutRequestID).map
        (fun u => (u.status, u.failureReason)))
      = some (specStkQueryAmendedMapping 1032 "Request cancelled by user") :=
  stk_result_code_mapping 1032 "Request cancelled by user"
    (sampleTransaction "co1" TxStatus.pending) 150
    ⟨[sampleTransaction "co1" TxStatus.pending], [], []⟩
    (by decide) (by decide) (by decide)

/-- C3 (counterexample): the two resolution paths do not share one
mapping: code 1019 resolves with reason "Transaction already processed" in
the webhook path but with the raw description in the query path, and code
1 is a failure in the webhook path while the query path leaves the
transaction pending. -/
theorem mapping_per_path_counterexample :
    stkCallbackFailureOutcome (.num 1019) "Request timed out"
      = (.failed, some "Transaction already processed") ∧
    stkQueryOutcome (.num 1019) "Request timed out"
      = (.failed, some "Request timed out") ∧
    (some "Transaction already processed" : Option String)
      ≠ some "Request timed out" ∧
    stkCallbackFailureOutcome (.num 1) "still under processing"
      = (.failed, some "still under processing") ∧
    stkQueryOutcome (.num 1) "still under processing" = (.pending, none) := by
  refine ⟨by decide, by decide, by decide, by decide, by decide⟩

/-- C5: a poll tick for a transaction whose status is no longer pending
performs no write to the transaction record: the store is unchanged in
every field including updatedAt, and the tick only stops the poller and
clears the timeout. -/
theorem pollTick_after_resolution_frame
    (id : String) (maxAttempts attempts : Nat) (gw : GatewayOutcome)
    (now : Nat) (st : SysState) (t : Transaction)
    (hfind : findByCheckout st.store id = some t)
    (hstatus : t.status ≠ .pending) :
    startStatusPollingTick id maxAttempts attempts gw now st
      = { st with
            activePollers := st.activePollers.erase id
            activeTimeouts := st.activeTimeouts.erase id } := by
  unfold startStatusPollingTick
  rw [hfind]
  simp only [stopStatusPolling, clearTransactionTimeout]
  rw [if_pos hstatus]

/-- Witness for the poll-tick frame theorem at a concrete resolved
transaction. -/
theorem pollTick_after_resolution_frame_witness :
    startStatusPollingTick "co1" 12 3 GatewayOutcome.inProgressError 200
        ⟨[sampleTransaction "co1" TxStatus.success], ["co1"], ["co1"]⟩
      = ⟨[sampleTransaction "co1" TxStatus.success],
          (["co1"] : List String).erase "co1",
          (["co1"] : List String).erase "co1"⟩ :=
  pollTick_after_resolution_frame "co1" 12 3 GatewayOutcome.inProgressError 200
    ⟨[sampleTransaction "co1" TxStatus.success], ["co1"], ["co1"]⟩
    (sampleTransaction "co1" TxStatus.success) (by decide) (by decide)

/-- C6: the STK webhook controller sends the 200 acknowledgment first and
unconditionally: it is the head of the event trace and the only response
event for every request body (well-formed, malformed, or carrying an
unknown correlation id, which is logged and discarded), and an unknown
correlation id leaves the store untouched. -/
theorem webhook_ack_before_processing (body : StkWebhookBody) (now : Nat)
    (st : SysState) :
    (handleStkCallbackController body now st).1.head? = some (.respond 200) ∧
    ((handleStkCallbackController body now st).1.filter
        (fun e => match e with | .respond _ => true | _ => false))
      = [.respond 200] ∧
    (∀ cb, body = .wellFormed cb →
      findByCheckout st.store cb.checkoutRequestID = none →
      (handleStkCallbackController body now st).2.store = st.store) := by
  refine ⟨?_, ?_, ?_⟩
  · cases body with
    | malformed => rfl
    | wellFormed cb =>
        unfold handleStkCallbackController
        dsimp only
        cases hx : (handleStkCallback cb now st).1 <;> simp [hx]
  · cases body with
    | malformed => rfl
    | wellFormed cb =>
        unfold handleStkCallbackController
        dsimp only
        cases hx : (handleStkCallback cb now st).1 <;> simp [hx, List.filter]
  · intro cb hbody hnone
    subst hbody
    unfold handleStkCallbackController handleStkCallback
    simp only [clearTransactionTimeout, stopStatusPolling]
    rw [hnone]

/-- Witness for the acknowledgment theorem at an unknown correlation id
against the empty store. -/
theorem webhook_ack_before_processing_witness :
    (handleStkCallbackController
        (.wellFormed ⟨"unknown", .num 0, "ok", none⟩) 100 ⟨[], [], []⟩).1.head?
      = some (.respond 200) ∧
    (handleStkCallbackController
        (.wellFormed ⟨"unknown", .num 0, "ok", none⟩) 100 ⟨[], [], []⟩).2.store
      = (⟨[], [], []⟩ : SysState).store :=
  ⟨(webhook_ack_before_processing
      (.wellFormed ⟨"unknown", .num 0, "ok", none⟩) 100 ⟨[], [], []⟩).1,
    (webhook_ack_before_processing
      (.wellFormed ⟨"unknown", .num 0, "ok", none⟩) 100 ⟨[], [], []⟩).2.2
      ⟨"unknown", .num 0, "ok", none⟩ rfl (by decide)⟩

/-- C7 (amended): the Mongoose-backed disbursement handler matches the
result webhook against either stored conversation identifier, so an
originator-keyed result still resolves the transaction there (a non-zero
code resolves it FAILED carrying the provider description); the
fine-table-backed handler selects only on conversationId, so when no
stored conversationId equals the payload's conversation id it resolves
nothing. -/
theorem b2c_correlation_matching (p : B2CResultData) (now : Nat) :
    (∀ t : B2CTransaction,
      t.originatorConversationId = p.originatorConversationID →
      jsEqNum p.resultCode 0 = false →
      handleB2CResultCallbackMongo p [t]
        = [{ t with
              status := "FAILED"
              resultCode := some (jsvalToString p.resultCode)
              resultDesc := some p.resultDesc }]) ∧
    (∀ store : List B2CTransaction,
      (∀ t ∈ store, t.conversationId ≠ p.conversationID) →
      handleB2CResultCallbackFine p now store = store) := by
  constructor
  · intro t hmatch hcode
    have hor : (t.conversationId == p.conversationID
        || t.originatorConversationId == p.originatorConversationID) = true := by
      simp [hmatch]
    simp [handleB2CResultCallbackMongo, hcode, updateFirstB2C, hor]
  · intro store hnone
    unfold handleB2CResultCallbackFine
    have hfilter : store.filter (fun t => t.conversationId == p.conversationID) = [] := by
      rw [List.filter_eq_nil_iff]
      intro a ha
      simp [hnone a ha]
    rw [hfilter]
    rfl

/-- Witness for the correlation-matching theorem at a concrete
originator-keyed payload. -/
theorem b2c_correlation_matching_witness :
    handleB2CResultCallbackMongo
        ⟨"AG_X", "OCI_1", "TX9", .num 1, "The initiator information is invalid."⟩
        [sampleB2CTransaction]
      = [{ sampleB2CTransaction with
            status := "FAILED"
            resultCode := some (jsvalToString (.num 1))
            resultDesc := some "The initiator information is invalid." }] ∧
    handleB2CResultCallbackFine
        ⟨"AG_X", "OCI_1", "TX9", .num 1, "The initiator information is invalid."⟩
        200 [sampleB2CTransaction]
      = [sampleB2CTransaction] :=
  ⟨(b2c_correlation_matching
      ⟨"AG_X", "OCI_1", "TX9", .num 1, "The initiator information is invalid."⟩ 200).1
      sampleB2CTransaction (by decide) (by decide),
    (b2c_correlation_matching
      ⟨"AG_X", "OCI_1", "TX9", .num 1, "The initiator information is invalid."⟩ 200).2
      [sampleB2CTransaction] (by decide)⟩

/-- C7 (counterexample): a disbursement result webhook keyed only by the
originator conversation id does not resolve the transaction in the
fine-table-backed handler: the pending row is left untouched instead of
ending FAILED with the provider description. -/
theorem b2c_secondary_key_counterexample :
    handleB2CResultCallbackFine
        ⟨"AG_X", "OCI_1", "TX9", .num 1, "The initiator information is invalid."⟩
        200 [sampleB2CTransaction]
      = [sampleB2CTransaction] ∧
    sampleB2CTransaction.status = "pending" ∧
    sampleB2CTransaction.originatorConversationId = "OCI_1" := by
  refine ⟨by decide, by decide, by decide⟩

/-- A concrete fine-table transaction row used by concrete instances. -/
def sampleFineTransaction (id : Nat) (transactionType status : String) :
    FineTransaction :=
  { id := id
    transactionType := transactionType
    amount := 10
    phoneNumber := "254712345678"
    referenceId := "REF1"
    status := status
    updatedAt := 100 }

/-- C8: retryTransaction returns a 404 error when no transaction with the
id exists, rejects any status other than failed or cancelled with a 400
error and no initiation, and re-runs initiation only for transactions in
failed or cancelled state. -/
theorem retryTransaction_status_gate (store : List FineTransaction) (id : Nat) :
    (store.find? (fun t => t.id == id) = none →
      retryTransaction store id = .apiError 404 "Transaction not found") ∧
    (∀ t, store.find? (fun t => t.id == id) = some t →
      t.status ≠ "failed" → t.status ≠ "cancelled" →
      retryTransaction store id
        = .apiError 400 ("Cannot retry transaction with status: " ++ t.status)) ∧
    (∀ k, retryTransaction store id = .retryInitiated k →
      ∃ t, store.find? (fun t => t.id == id) = some t ∧
        (t.status = "failed" ∨ t.status = "cancelled")) := by
  refine ⟨?_, ?_, ?_⟩
  · intro h
    unfold retryTransaction
    rw [h]
  · intro t hfind h1 h2
    unfold retryTransaction
    rw [hfind]
    dsimp only
    have hb : (t.status != "failed" && t.status != "cancelled") = true := by
      simp [h1, h2]
    rw [if_pos hb]
  · intro k hk
    unfold retryTransaction at hk
    cases hfind : store.find? (fun t => t.id == id) with
    | none =>
        rw [hfind] at hk
        exact absurd hk (by simp)
    | some t =>
        rw [hfind] at hk
        dsimp only at hk
        refine ⟨t, rfl, ?_⟩
        by_cases hf : t.status = "failed"
        · exact Or.inl hf
        · by_cases hc : t.status = "cancelled"
          · exact Or.inr hc
          · have hb : (t.status != "failed" && t.status != "cancelled") = true := by
              simp [hf, hc]
            rw [if_pos hb] at hk
            exact absurd hk (by simp)

/-- Witness for the retry gate theorem: a missing id, a pending row, and a
failed row that is retried. -/
theorem retryTransaction_status_gate_witness :
    retryTransaction [sampleFineTransaction 1 "STK_PUSH" "failed",
        sampleFineTransaction 2 "B2C" "pending"] 3
      = .apiError 404 "Transaction not found" ∧
    retryTransaction [sampleFineTransaction 1 "STK_PUSH" "failed",
        sampleFineTransaction 2 "B2C" "pending"] 2
      = .apiError 400
          ("Cannot retry transaction with status: "
            ++ (sampleFineTransaction 2 "B2C" "pending").status) ∧
    (∃ t, ([sampleFineTransaction 1 "STK_PUSH" "failed",
        sampleFineTransaction 2 "B2C" "pending"].find? (fun t => t.id == 1)) = some t ∧
      (t.status = "failed" ∨ t.status = "cancelled")) :=
  ⟨(retryTransaction_status_gate [sampleFineTransaction 1 "STK_PUSH" "failed",
      sampleFineTransaction 2 "B2C" "pending"] 3).1 (by decide),
    (retryTransaction_status_gate [sampleFineTransaction 1 "STK_PUSH" "failed",
      sampleFineTransaction 2 "B2C" "pending"] 2).2.1
      (sampleFineTransaction 2 "B2C" "pending") (by decide) (by decide) (by decide),
    (retryTransaction_status_gate [sampleFineTransaction 1 "STK_PUSH" "failed",
      sampleFineTransaction 2 "B2C" "pending"] 1).2.2 "STK_PUSH" (by decide)⟩

/-- C9: the metadata reduce yields a flat map whose lookups are exactly
the last kept name/value item for each name (an item is kept when it has a
truthy Name and a defined Value, and later duplicates overwrite earlier
ones); on a successful callback the MpesaReceiptNumber entry of that map
is persisted as both mpesaReceiptNumber and transactionId, and the
concrete ws_1 scenario ends SUCCESS with receipt ABC123. -/
theorem metadata_reduction_and_receipt :
    (∀ (items : List MetaItem) (k : String),
      jsGet (reduceMetadataItems items) k = lastKeptValue items k) ∧
    (∀ (cb : StkCallbackData) (t : Transaction) (st : SysState) (now : Nat),
      findByCheckout st.store cb.checkoutRequestID = some t →
      jsEqNum cb.resultCode 0 = true →
      ((findByCheckout (handleStkCallback cb now st).2.store
          cb.checkoutRequestID).map
          (fun u => (u.status, u.mpesaReceiptNumber, u.transactionId)))
        = some (.success,
            (lastKeptValue (cb.callbackMetadata.getD [])
              "MpesaReceiptNumber").map jsvalToString,
            (lastKeptValue (cb.callbackMetadata.getD [])
              "MpesaReceiptNumber").map jsvalToString)) ∧
    ((findByCheckout
        (handleStkCallback
          ⟨"ws_1", .num 0, "The service request is processed successfully.",
            some [⟨some "MpesaReceiptNumber", some (.str "ABC123")⟩]⟩ 160
          ⟨[sampleTransaction "ws_1" TxStatus.pending], ["ws_1"], ["ws_1"]⟩).2.store
        "ws_1").map (fun u => (u.status, u.mpesaReceiptNumber)))
      = some (.success, some "ABC123") := by
  refine ⟨jsGet_reduceMetadataItems, ?_, ?_⟩
  · intro cb t st now hfind hcode
    rw [handleStkCallback_find cb now st t hfind]
    simp [stkCallbackApply, hcode, jsGet_reduceMetadataItems]
  · decide

/-- Witness for the metadata-reduction theorem at a list with a dropped
nameless item, an undefined value and a duplicated receipt key. -/
theorem metadata_reduction_and_receipt_witness :
    jsGet (reduceMetadataItems
        [⟨some "Amount", some (.num 100)⟩,
         ⟨some "MpesaReceiptNumber", some (.str "X1")⟩,
         ⟨none, some (.str "noname")⟩,
         ⟨some "MpesaReceiptNumber", some (.str "ABC123")⟩,
         ⟨some "Dropped", none⟩]) "MpesaReceiptNumber"
      = lastKeptValue
          [⟨some "Amount", some (.num 100)⟩,
           ⟨some "MpesaReceiptNumber", some (.str "X1")⟩,
           ⟨none, some (.str "noname")⟩,
           ⟨some "MpesaReceiptNumber", some (.str "ABC123")⟩,
           ⟨some "Dropped", none⟩] "MpesaReceiptNumber" ∧
    ((findByCheckout
        (handleStkCallback
          ⟨"co1", .num 0, "ok",
            some [⟨some "MpesaReceiptNumber", some (.str "X1")⟩,
                  ⟨some "MpesaReceiptNumber", some (.str "ABC123")⟩]⟩ 170
          ⟨[sampleTransaction "co1" TxStatus.pending], [], []⟩).2.store "co1").map
        (fun u => (u.status, u.mpesaReceiptNumber, u.transactionId)))
      = some (.success,
          (lastKeptValue
            ((some [⟨some "MpesaReceiptNumber", some (.str "X1")⟩,
                    ⟨some "MpesaReceiptNumber", some (.str "ABC123")⟩]
              : Option (List MetaItem)).getD [])
            "MpesaReceiptNumber").map jsvalToString,
          (lastKeptValue
            ((some [⟨some "MpesaReceiptNumber", some (.str "X1")⟩,
                    ⟨some "MpesaReceiptNumber", some (.str "ABC123")⟩]
              : Option (List MetaItem)).getD [])
            "MpesaReceiptNumber").map jsvalToString) :=
  ⟨metadata_reduction_and_receipt.1
      [⟨some "Amount", some (.num 100)⟩,
       ⟨some "MpesaReceiptNumber", some (.str "X1")⟩,
       ⟨none, some (.str "noname")⟩,
       ⟨some "MpesaReceiptNumber", some (.str "ABC123")⟩,
       ⟨some "Dropped", none⟩] "MpesaReceiptNumber",
    metadata_reduction_and_receipt.2.1
      ⟨"co1", .num 0, "ok",
        some [⟨some "MpesaReceiptNumber", some (.str "X1")⟩,
              ⟨some "MpesaReceiptNumber", some (.str "ABC123")⟩]⟩
      (sampleTransaction "co1" TxStatus.pending)
      ⟨[sampleTransaction "co1" TxStatus.pending], [], []⟩ 170
      (by decide) (by decide)⟩

/-- C10: the STK Push request body sends Math.round(amount) to the
gateway while the persisted transaction stores the original amount: the
two can differ by up to one half (the bound is attained at a
half-integer) and coincide exactly on integral amounts. -/
theorem initiateSTKPush_amount_rounding
    (shortCode phoneNumber : String) (amount : Rat)
    (accountReference transactionDesc checkoutRequestID merchantRequestID : String)
    (now : Nat) (st : SysState) :
    (initiateSTKPush shortCode phoneNumber amount accountReference
        transactionDesc "0" checkoutRequestID merchantRequestID now st).1.amount
      = jsMathRound amount ∧
    ((initiateSTKPush shortCode phoneNumber amount accountReference
        transactionDesc "0" checkoutRequestID merchantRequestID now
        st).2.store.getLast?).map (fun t => t.amount) = some amount ∧
    |(jsMathRound amount : Rat) - amount| ≤ 1 / 2 ∧
    (∀ n : Int, amount = (n : Rat) → (jsMathRound amount : Rat) = amount) ∧
    |(jsMathRound (1 / 2 : Rat) : Rat) - 1 / 2| = 1 / 2 := by
  refine ⟨?_, ?_, ?_, ?_, ?_⟩
  · unfold initiateSTKPush
    rw [if_pos rfl]
  · unfold initiateSTKPush setTransactionTimeoutArm
    rw [if_pos rfl]
    dsimp only
    rw [List.getLast?_concat]
    rfl
  · have h1 : ((jsMathRound amount : Int) : Rat) ≤ amount + 1 / 2 := by
      unfold jsMathRound
      exact_mod_cast Int.floor_le (amount + 1 / 2)
    have h2 : amount + 1 / 2 < ((jsMathRound amount : Int) : Rat) + 1 := by
      unfold jsMathRound
      exact_mod_cast Int.lt_floor_add_one (amount + 1 / 2)
    rw [abs_le]
    constructor <;> linarith
  · intro n hn
    subst hn
    unfold jsMathRound
    rw [Int.floor_int_add]
    norm_num
  · have hsum : ((1 : Rat) / 2 + 1 / 2) = 1 := by norm_num
    unfold jsMathRound
    rw [hsum, Int.floor_one]
    norm_num

/-- Witness for the amount-rounding theorem at the integral amount 7. -/
theorem initiateSTKPush_amount_rounding_witness :
    (jsMathRound (7 : Rat) : Rat) = (7 : Rat) :=
  (initiateSTKPush_amount_rounding "174379" "0712345678" 7 "REF1" "Pay"
      "co9" "mr9" 100 ⟨[], [], []⟩).2.2.2.1 7 (by norm_num)

theorem tick_inProgress_pending (t : Transaction)
    (maxAttempts attempts now : Nat) (ps ts : List String)
    (hp : t.status = .pending) (hlt : attempts < maxAttempts) :
    startStatusPollingTick t.checkoutRequestID maxAttempts attempts
        .inProgressError now ⟨[t], ps, ts⟩ = ⟨[t], ps, ts⟩ := by
  simp [startStatusPollingTick, queryStkStatus, findByCheckout, List.find?,
    hp, Nat.not_le.mpr hlt]

theorem tick_inProgress_exhausted (t : Transaction)
    (maxAttempts attempts now : Nat) (ps ts : List String)
    (hp : t.status = .pending) (hge : maxAttempts ≤ attempts) :
    startStatusPollingTick t.checkoutRequestID maxAttempts attempts
        .inProgressError now ⟨[t], ps, ts⟩
      = ⟨[{ t with
              status := .cancelled
              failureReason := some "Timeout - No Response"
              timeoutHandled := true
              updatedAt := now }],
          ps.erase t.checkoutRequestID, ts⟩ := by
  simp [startStatusPollingTick, queryStkStatus, findByCheckout, List.find?,
    saveFirst, stopStatusPolling, hp, hge]

theorem runAux_inProgress (t : Transaction) (now : Nat)
    (hp : t.status = .pending) :
    ∀ (n k : Nat), n + k = 12 → 0 < n →
    runStatusPollingAux t.checkoutRequestID 12 k
        (List.replicate n (GatewayOutcome.inProgressError, now))
        ⟨[t], [t.checkoutRequestID], [t.checkoutRequestID]⟩
      = ⟨[{ t with
              status := .cancelled
              failureReason := some "Timeout - No Response"
              timeoutHandled := true
              updatedAt := now }],
          [], [t.checkoutRequestID]⟩ := by
  intro n
  induction n with
  | zero => intro k _ h0; exact absurd h0 (by simp)
  | succ m ih =>
      intro k hsum _
      rw [List.replicate_succ]
      unfold runStatusPollingAux
      rw [if_pos (by simp)]
      by_cases hm : m = 0
      · subst hm
        have hk : k = 11 := by omega
        subst hk
        rw [tick_inProgress_exhausted t 12 12 now _ _ hp (by omega)]
        simp [runStatusPollingAux, List.erase_cons_head]
      · rw [tick_inProgress_pending t 12 (k + 1) now _ _ hp (by omega)]
        exact ih (k + 1) (by omega) (by omega)

/-- C4 (amended): a transaction still pending after the poller's twelve
indeterminate ticks is resolved CANCELLED at the twelfth tick with reason
"Timeout - No Response" (the code's wording, not the claimed "no response
within timeout window"), the poller stops, and a hard timeout firing
afterwards performs no status change: status and reason stay cancelled
with the same reason, only timeoutHandled and updatedAt being
rewritten. -/
theorem poller_exhaustion_cancels (t : Transaction) (now later : Nat)
    (gw : GatewayOutcome) (hp : t.status = .pending) :
    (runStatusPolling t.checkoutRequestID 12
        (List.replicate 12 (GatewayOutcome.inProgressError, now))
        ⟨[t], [t.checkoutRequestID], [t.checkoutRequestID]⟩).store
      = [{ t with
            status := .cancelled
            failureReason := some "Timeout - No Response"
            timeoutHandled := true
            updatedAt := now }] ∧
    (runStatusPolling t.checkoutRequestID 12
        (List.replicate 12 (GatewayOutcome.inProgressError, now))
        ⟨[t], [t.checkoutRequestID], [t.checkoutRequestID]⟩).activePollers
      = [] ∧
    ((findByCheckout
        (transactionTimeoutHandler t.checkoutRequestID gw later
          (runStatusPolling t.checkoutRequestID 12
            (List.replicate 12 (GatewayOutcome.inProgressError, now))
            ⟨[t], [t.checkoutRequestID], [t.checkoutRequestID]⟩)).store
        t.checkoutRequestID).map
        (fun u => (u.status, u.resultCode, u.failureReason)))
      = some (.cancelled, t.resultCode, some "Timeout - No Response") := by
  have hrun := runAux_inProgress t now hp 12 0 (by omega) (by omega)
  refine ⟨?_, ?_, ?_⟩
  · unfold runStatusPolling
    rw [hrun]
  · unfold runStatusPolling
    rw [hrun]
  · unfold runStatusPolling
    rw [hrun]
    exact timeoutHandler_nonpending t.checkoutRequestID gw later
      ⟨[{ t with
            status := .cancelled
            failureReason := some "Timeout - No Response"
            timeoutHandled := true
            updatedAt := now }], [], [t.checkoutRequestID]⟩
      { t with
          status := .cancelled
          failureReason := some "Timeout - No Response"
          timeoutHandled := true
          updatedAt := now }
      (by simp [findByCheckout, List.find?]) (by simp)

/-- Witness for the poller-exhaustion theorem at the concrete ws_2
transaction. -/
theorem poller_exhaustion_cancels_witness :
    (runStatusPolling (sampleTransaction "ws_2" TxStatus.pending).checkoutRequestID 12
        (List.replicate 12 (GatewayOutcome.inProgressError, 60))
        ⟨[sampleTransaction "ws_2" TxStatus.pending],
          [(sampleTransaction "ws_2" TxStatus.pending).checkoutRequestID],
          [(sampleTransaction "ws_2" TxStatus.pending).checkoutRequestID]⟩).store
      = [{ sampleTransaction "ws_2" TxStatus.pending with
            status := .cancelled
            failureReason := some "Timeout - No Response"
            timeoutHandled := true
            updatedAt := 60 }] ∧
    ((findByCheckout
        (transactionTimeoutHandler
          (sampleTransaction "ws_2" TxStatus.pending).checkoutRequestID
          (GatewayOutcome.response (.num 0) "ok") 130
          (runStatusPolling
            (sampleTransaction "ws_2" TxStatus.pending).checkoutRequestID 12
            (List.replicate 12 (GatewayOutcome.inProgressError, 60))
            ⟨[sampleTransaction "ws_2" TxStatus.pending],
              [(sampleTransaction "ws_2" TxStatus.pending).checkoutRequestID],
              [(sampleTransaction "ws_2" TxStatus.pending).checkoutRequestID]⟩)).store
        (sampleTransaction "ws_2" TxStatus.pending).checkoutRequestID).map
        (fun u => (u.status, u.resultCode, u.failureReason)))
      = some (.cancelled, (sampleTransaction "ws_2" TxStatus.pending).resultCode,
          some "Timeout - No Response") :=
  ⟨(poller_exhaustion_cancels (sampleTransaction "ws_2" TxStatus.pending) 60 130
      (GatewayOutcome.response (.num 0) "ok") (by decide)).1,
    (poller_exhaustion_cancels (sampleTransaction "ws_2" TxStatus.pending) 60 130
      (GatewayOutcome.response (.num 0) "ok") (by decide)).2.2⟩

/-- C4 (counterexample): at the twelfth indeterminate tick the poller
records the reason "Timeout - No Response", not the wording "no response
within timeout window" stated by the claim. -/
theorem poller_exhaustion_reason_counterexample :
    ((runStatusPolling "ws_2" 12
        (List.replicate 12 (GatewayOutcome.inProgressError, 60))
        ⟨[sampleTransaction "ws_2" TxStatus.pending], ["ws_2"], ["ws_2"]⟩).store.head?).map
        (fun u => u.failureReason)
      = some (some "Timeout - No Response") ∧
    (some (some "Timeout - No Response") : Option (Option String))
      ≠ some (some "no response within timeout window") := by
  constructor
  · decide
  · decide
